import Mathlib

/-!
Verification of the mortgage-calculator backend
(`src/mortgage_calculator_backend/src/routes/mortgage.py`).

Shallow embedding conventions:
* Python strings are `List Char` (the repository's inputs are ASCII;
  Python's Unicode-aware `lower`, `\w`, `\s` and `strip` are modelled over
  the ASCII subset they agree on there).
* Python `Decimal` values are `PyDecimal`: an exact rational, a signed
  infinity, or NaN.  The sign of zero and NaN payload digits are dropped
  (they do not influence any behaviour modelled here).
* Python binary floats appear only as range-bound literals; each is
  modelled as the exact rational value of the IEEE-754 double the
  literal denotes.  `50.0` and the integer bounds are exactly
  representable; `0.01` denotes the double 5764607523034235/2^59,
  strictly greater than 1/100 — and Python's Decimal-float comparisons
  are exact, so this difference is observable at the rate boundary.
  The final `float(decimal_value)` conversion is modelled as the
  identity on the exact value.
* The raw value of a request field is `Option (List Char)`: `none` models
  a key that is absent from the JSON payload (Python `data.get(k)`
  returning `None`), `some s` a string value.  (JSON number values reach
  `str()` as their decimal rendering and behave like the corresponding
  string; no claim distinguishes them.)
* Exceptions are modelled by explicit `Option`/error results: the
  `Decimal` constructor returns `none` on `InvalidOperation`, and the
  decimal order comparisons return `none` when they signal
  `InvalidOperation` (comparison with a NaN), which the source's
  outermost `except Exception` converts to the generic
  "Validation error for <field>" message.
-/

namespace Mortgage

/-- ASCII lower-casing of one character, as Python `str.lower` acts on
ASCII (the only characters the modelled inputs contain). -/
def pyLowerChar (c : Char) : Char :=
  if 'A' ≤ c && c ≤ 'Z' then Char.ofNat (c.toNat + 32) else c

/-- Lower-case a whole string. -/
def pyToLower (l : List Char) : List Char := l.map pyLowerChar

/-- Python's whitespace set for `str.strip` (ASCII part): space, tab,
newline, carriage return, vertical tab, form feed. -/
def pyIsSpace (c : Char) : Bool :=
  c = ' ' || c = '\t' || c = '\n' || c = '\r' || c = '\x0b' || c = '\x0c'

/-- Python regex `\w` (ASCII part): letters, digits, underscore. -/
def pyIsWordChar (c : Char) : Bool :=
  ('a' ≤ c && c ≤ 'z') || ('A' ≤ c && c ≤ 'Z') || ('0' ≤ c && c ≤ '9') || c = '_'

/-- ASCII decimal digit. -/
def isDigitChar (c : Char) : Bool := '0' ≤ c && c ≤ '9'

/-- Python `str.strip()`: drop whitespace from both ends. -/
def pyStrip (l : List Char) : List Char :=
  ((l.dropWhile pyIsSpace).reverse.dropWhile pyIsSpace).reverse

/-- Python `str(value)` for the raw field value: an absent key is the
`None` object, whose string form is the four-character string `None`
(source line 19: `str_value = str(value).strip()`). -/
def pyStr : Option (List Char) → List Char
  | none => ("None".toList)
  | some s => s

/-!  A small regular-expression engine covering exactly the constructs
used by the source's `malicious_patterns` list (lines 26–36): literal
strings, one character from a class, zero-or-more characters from a
class, and concatenation.  For the pure existence question answered by
`re.search`, lazy (`.*?`) and greedy (`.*`) repetition coincide, so both
are `RE.many`.  `re.IGNORECASE` is modelled by matching the lower-cased
input against the (already lower-case) patterns; the character classes
involved are closed under case. -/

/-- Regular expressions: a character class, its Kleene star, a literal
string, or concatenation. -/
inductive RE where
  | one (p : Char → Bool)
  | many (p : Char → Bool)
  | lit (s : List Char)
  | seq (a b : RE)

/-- All remainders of `l` after stripping a (possibly empty) prefix of
characters satisfying `p`. -/
def manyEnds (p : Char → Bool) : List Char → List (List Char)
  | [] => [[]]
  | c :: r => (c :: r) :: (if p c then manyEnds p r else [])

/-- All remainders of `l` after a prefix of `l` matching `re`. -/
def matchEnds : RE → List Char → List (List Char)
  | .one _, [] => []
  | .one p, c :: r => if p c then [r] else []
  | .many p, l => manyEnds p l
  | .lit s, l => if s.isPrefixOf l then [l.drop s.length] else []
  | .seq a b, l => (matchEnds a l).flatMap (matchEnds b)

/-- Python `re.search`: the pattern matches starting at some position. -/
def reSearch (r : RE) : List Char → Bool
  | [] => !(matchEnds r []).isEmpty
  | c :: t => !(matchEnds r (c :: t)).isEmpty || reSearch r t

/-- The character class `[;&|` + backtick + `$]` of the fifth pattern
(backtick written via its code point 96). -/
def shellMeta (c : Char) : Bool :=
  c = ';' || c = '&' || c = '|' || c = Char.ofNat 96 || c = '$'

/-- The source's `malicious_patterns` list (lines 26–36), transcribed
pattern by pattern; `.` is any character except newline. -/
def maliciousPatterns : List RE :=
  let dot : Char → Bool := fun c => c != '\n'
  [ .seq (.lit ("<script".toList))
      (.seq (.many dot) (.seq (.lit (">".toList))
        (.seq (.many dot) (.lit ("</script>".toList))))),
    .lit ("javascript:".toList),
    .seq (.lit ("on".toList))
      (.seq (.one pyIsWordChar) (.seq (.many pyIsWordChar)
        (.seq (.many pyIsSpace) (.lit ("=".toList))))),
    .seq (.lit ("<".toList)) (.seq (.many dot) (.lit (">".toList))),
    .one shellMeta,
    .seq (.lit ("union".toList))
      (.seq (.one pyIsSpace) (.seq (.many pyIsSpace) (.lit ("select".toList)))),
    .seq (.lit ("drop".toList))
      (.seq (.one pyIsSpace) (.seq (.many pyIsSpace) (.lit ("table".toList)))),
    .seq (.lit ("insert".toList))
      (.seq (.one pyIsSpace) (.seq (.many pyIsSpace) (.lit ("into".toList)))),
    .seq (.lit ("delete".toList))
      (.seq (.one pyIsSpace) (.seq (.many pyIsSpace) (.lit ("from".toList)))) ]

/-- The loop of source lines 38–41: does any malicious pattern match
somewhere in the string (case-insensitively)? -/
def containsMalicious (l : List Char) : Bool :=
  maliciousPatterns.any (fun r => reSearch r (pyToLower l))

/-!  Python `decimal.Decimal` construction from a string, and the order
comparisons used by the range checks. -/

/-- A value of Python's `Decimal` type as far as this program observes
it: an exact rational, an infinity (`neg` is the sign), or a NaN. -/
inductive PyDecimal where
  | fin (q : ℚ)
  | inf (neg : Bool)
  | nan
deriving DecidableEq

/-- Numeric value of a digit string (most significant first). -/
def digitsToNat (l : List Char) : ℕ :=
  l.foldl (fun a c => 10 * a + (c.toNat - 48)) 0

/-- Split at the first `e` (the exponent marker; input is lower-cased):
returns the mantissa part and, when an `e` occurs, the rest. -/
def splitAtE : List Char → List Char × Option (List Char)
  | [] => ([], none)
  | c :: r =>
    if c = 'e' then ([], some r)
    else
      let (m, e) := splitAtE r
      (c :: m, e)

/-- Exponent part `[sign] digits` (nonempty digits), per the decimal
numeric-string grammar. -/
def parseExp : List Char → Option ℤ
  | [] => none
  | c :: r =>
    if c = '+' then
      if r ≠ [] && r.all isDigitChar then some ((digitsToNat r : ℤ)) else none
    else if c = '-' then
      if r ≠ [] && r.all isDigitChar then some (-(digitsToNat r : ℤ)) else none
    else if (c :: r).all isDigitChar then some ((digitsToNat (c :: r) : ℤ))
    else none

/-- Mantissa `(?=\d|\.\d) \d* (\. \d*)?`: digits with an optional point;
at least one digit, and a bare point needs a digit after it when there is
none before (the grammar's lookahead).  Returns the digits' combined
value and the number of fractional digits. -/
def parseMantissa (l : List Char) : Option (ℕ × ℕ) :=
  let intPart := l.takeWhile isDigitChar
  let rest := l.dropWhile isDigitChar
  match rest with
  | [] => if intPart = [] then none else some (digitsToNat intPart, 0)
  | '.' :: fr =>
    if fr.all isDigitChar && (intPart ≠ [] || fr ≠ []) then
      some (digitsToNat (intPart ++ fr), fr.length)
    else none
  | _ => none

/-- Assemble a finite decimal value from sign, digit value, number of
fractional digits, and decimal exponent: the rational
`± v * 10 ^ (ex - fd)`, built with `mkRat` over integer arithmetic so
that concrete inputs evaluate inside the kernel. -/
def ratVal (neg : Bool) (v : ℕ) (fd : ℕ) (ex : ℤ) : ℚ :=
  let sgn : ℤ := if neg then -1 else 1
  let e : ℤ := ex - (fd : ℤ)
  if 0 ≤ e then mkRat (sgn * (v : ℤ) * (10 : ℤ) ^ e.toNat) 1
  else mkRat (sgn * (v : ℤ)) ((10 : ℕ) ^ (-e).toNat)

/-- Numeric branch of the decimal grammar: mantissa with optional
exponent part. -/
def parseNumeric (neg : Bool) (l : List Char) : Option PyDecimal :=
  let (mant, expPart) := splitAtE l
  match parseMantissa mant, expPart with
  | some (v, fd), none => some (.fin (ratVal neg v fd 0))
  | some (v, fd), some e => (parseExp e).map (fun ex => .fin (ratVal neg v fd ex))
  | none, _ => none

/-- Body of a decimal numeric string after the optional sign (input
lower-cased): `inf`/`infinity`, `[s]nan` with optional diagnostic
digits, or a numeric mantissa/exponent. -/
def parseBody (neg : Bool) (l : List Char) : Option PyDecimal :=
  if l = ("inf".toList) || l = ("infinity".toList) then some (.inf neg)
  else if ("nan".toList).isPrefixOf l && (l.drop 3).all isDigitChar then some .nan
  else if ("snan".toList).isPrefixOf l && (l.drop 4).all isDigitChar then some .nan
  else parseNumeric neg l

/-- Optional leading sign. -/
def parseSign : List Char → Bool × List Char
  | [] => (false, [])
  | c :: r => if c = '-' then (true, r) else if c = '+' then (false, r) else (false, c :: r)

/-- Python `Decimal(str_value)` (source line 45): strip whitespace,
remove underscores, then match the decimal numeric-string grammar
case-insensitively.  `none` models the `InvalidOperation` the
constructor raises on a malformed string, which the source maps to the
"must be a valid number" error (lines 44–47). -/
def parseDecimal (l : List Char) : Option PyDecimal :=
  let s := pyToLower ((pyStrip l).filter (fun c => c != '_'))
  let (neg, body) := parseSign s
  parseBody neg body

/-- `decimal_value < bound` (source line 50).  `none` models the
`InvalidOperation` signalled when the decimal is a NaN — Python's
decimal order comparisons raise on NaN, and that raise happens outside
the inner `except` of lines 44–47, so it reaches the outer handler. -/
def pyDecLt : PyDecimal → ℚ → Option Bool
  | .nan, _ => none
  | .inf b, _ => some b
  | .fin x, q => some (decide (x < q))

/-- `decimal_value > bound` (source line 53), same conventions. -/
def pyDecGt : PyDecimal → ℚ → Option Bool
  | .nan, _ => none
  | .inf b, _ => some (!b)
  | .fin x, q => some (decide (q < x))

/-- A range bound as the call sites supply it: a Python number literal,
carried with the text `str()` renders it as inside the error message
f-strings (lines 51 and 54). -/
structure Bound where
  val : ℚ
  txt : List Char
deriving DecidableEq

/-- Maximum-bound stage of `validate_input` (lines 53–56): fail when the
value exceeds the bound, otherwise succeed with the value.  A signalling
comparison (NaN) is converted by the outer handler to the generic
message (lines 58–60). -/
def rangeCheckMax (d : PyDecimal) (field_name : List Char) (max_val : Option Bound) :
    Option PyDecimal × Option (List Char) :=
  match max_val with
  | none => (some d, none)
  | some mx =>
    match pyDecGt d mx.val with
    | none => (none, some (("Validation error for ".toList) ++ field_name))
    | some true => (none, some (field_name ++ (" must be no more than ".toList) ++ mx.txt))
    | some false => (some d, none)

/-- Range-validation stage of `validate_input` (lines 49–56): the
minimum bound first, then the maximum bound. -/
def rangeCheck (d : PyDecimal) (field_name : List Char) (min_val max_val : Option Bound) :
    Option PyDecimal × Option (List Char) :=
  match min_val with
  | none => rangeCheckMax d field_name max_val
  | some m =>
    match pyDecLt d m.val with
    | none => (none, some (("Validation error for ".toList) ++ field_name))
    | some true => (none, some (field_name ++ (" must be at least ".toList) ++ m.txt))
    | some false => rangeCheckMax d field_name max_val

/-- `validate_input(value, field_name, min_val, max_val)` (source lines
12–60).  Checks in source order: empty after `str()`/`strip()`,
malicious patterns, `Decimal` parse, minimum bound, maximum bound; the
first failure returns `(None, message)`, success returns the value with
no message.  (The Python parameters default to `None`; both call sites
pass both bounds explicitly.)  The final `float(decimal_value)` of line
56 is modelled as the identity on the exact value. -/
def validate_input (value : Option (List Char)) (field_name : List Char)
    (min_val max_val : Option Bound) : Option PyDecimal × Option (List Char) :=
  let str_value := pyStrip (pyStr value)
  if str_value = [] then (none, some (field_name ++ (" cannot be empty".toList)))
  else if containsMalicious str_value then
    (none, some (("Invalid characters detected in ".toList) ++ field_name))
  else
    match parseDecimal str_value with
    | none => (none, some (field_name ++ (" must be a valid number".toList)))
    | some d => rangeCheck d field_name min_val max_val

/-- `calculate_mortgage(principal, annual_rate, years)` (source lines
62–90): the fixed-rate amortization formula with a straight-line branch
for a zero monthly rate.  Python evaluates `(1 + monthly_rate) ** num_payments`
with float arithmetic; here the arithmetic is exact rational arithmetic,
and `years` is taken as a natural number so that the power has an
integer exponent (the spec's LoanTerms declares `years` a positive
integer; the validator in fact lets non-integer years through — see the
development around claim C5 — but every numeric claim about this
function concerns integer terms). -/
def calculate_mortgage (principal annual_rate : ℚ) (years : ℕ) : ℚ :=
  let monthly_rate := annual_rate / 100 / 12
  let num_payments : ℕ := years * 12
  if monthly_rate = 0 then principal / (num_payments : ℚ)
  else
    let factor := (1 + monthly_rate) ^ num_payments
    principal * (monthly_rate * factor) / (factor - 1)

/-!  The `/calculate` endpoint (source lines 92–179), modelled from the
point where the JSON body has been parsed: the three fields are
validated independently with the bounds of lines 113–132, all error
messages are collected in the fixed order principal, rate, years (lines
134–141), and the calculator is invoked only when no error occurred.
`CalcResponse.dispatched` records the three validated values handed to
`calculate_mortgage` (line 150); the numeric response assembly of lines
152–167 needs the float power discussed at `calculate_mortgage` and is
not needed by any claim about this dispatch logic. -/

/-- Field name `'Principal'` (line 115). -/
def principalField : List Char := "Principal".toList
/-- Field name `'Annual Interest Rate'` (line 122). -/
def rateField : List Char := "Annual Interest Rate".toList
/-- Field name `'Years'` (line 129). -/
def yearsField : List Char := "Years".toList

/-- `min_val=1000` (line 116). -/
def principalMin : Bound := ⟨1000, "1000".toList⟩
/-- `max_val=10000000` (line 117). -/
def principalMax : Bound := ⟨10000000, "10000000".toList⟩
/-- `min_val=0.01` (line 123): the float literal denotes the IEEE-754
double nearest 0.01, the exact rational 5764607523034235/2^59 (strictly
greater than 1/100); `str(0.01)` renders as `0.01` in the message. -/
def rateMin : Bound := ⟨mkRat 5764607523034235 576460752303423488, "0.01".toList⟩
/-- `max_val=50.0` (line 124). -/
def rateMax : Bound := ⟨50, "50.0".toList⟩
/-- `min_val=1` (line 130). -/
def yearsMin : Bound := ⟨1, "1".toList⟩
/-- `max_val=50` (line 131). -/
def yearsMax : Bound := ⟨50, "50".toList⟩

/-- The parsed JSON body: the three raw field values, each possibly
absent. -/
structure Payload where
  principal : Option (List Char)
  annualRate : Option (List Char)
  years : Option (List Char)

/-- Outcome of the endpoint's validation-and-dispatch logic:
`validationFailed details` is the HTTP 400 body
`{error: "Validation failed", details: [...]}` (lines 143–147);
`dispatched` carries the validated values passed to
`calculate_mortgage` (line 150). -/
inductive CalcResponse where
  | validationFailed (details : List (List Char))
  | dispatched (principal annualRate years : PyDecimal)
deriving DecidableEq

/-- The validation and dispatch portion of `calculate()` (source lines
113–150).  Each field is validated independently; the errors are
collected in source order; the calculator runs only when no error was
collected.  (`getD .nan` is never exercised: when no error is collected
each validated value is present — the exactly-one-outcome invariant
proved below.) -/
def calculate (p : Payload) : CalcResponse :=
  let rp := validate_input p.principal principalField (some principalMin) (some principalMax)
  let rr := validate_input p.annualRate rateField (some rateMin) (some rateMax)
  let ry := validate_input p.years yearsField (some yearsMin) (some yearsMax)
  let errors := [rp.2, rr.2, ry.2].filterMap id
  if errors = [] then .dispatched (rp.1.getD .nan) (rr.1.getD .nan) (ry.1.getD .nan)
  else .validationFailed errors

/-!  Helper lemmas shared by the claim theorems. -/

/-- The maximum-bound stage returns either the value it was given with
no message, or no value with a message. -/
theorem rangeCheckMax_shape (d : PyDecimal) (fn : List Char) (mx : Option Bound) :
    rangeCheckMax d fn mx = (some d, none) ∨
    ∃ e, rangeCheckMax d fn mx = (none, some e) := by
  unfold rangeCheckMax
  split
  · exact Or.inl rfl
  · split
    · exact Or.inr ⟨_, rfl⟩
    · exact Or.inr ⟨_, rfl⟩
    · exact Or.inl rfl

/-- The range stage returns either the value it was given with no
message, or no value with a message. -/
theorem rangeCheck_shape (d : PyDecimal) (fn : List Char) (mn mx : Option Bound) :
    rangeCheck d fn mn mx = (some d, none) ∨
    ∃ e, rangeCheck d fn mn mx = (none, some e) := by
  unfold rangeCheck
  split
  · exact rangeCheckMax_shape d fn mx
  · split
    · exact Or.inr ⟨_, rfl⟩
    · exact Or.inr ⟨_, rfl⟩
    · exact rangeCheckMax_shape d fn mx

/-- A successful range check with both bounds present means the value is
a finite decimal lying between the bounds (inclusive). -/
theorem rangeCheck_success (d0 d : PyDecimal) (fn : List Char) (m M : Bound)
    (h : rangeCheck d0 fn (some m) (some M) = (some d, none)) :
    ∃ q : ℚ, d = .fin q ∧ m.val ≤ q ∧ q ≤ M.val := by
  unfold rangeCheck rangeCheckMax at h
  cases d0 with
  | nan => simp [pyDecLt] at h
  | inf b => cases b <;> simp [pyDecLt, pyDecGt] at h
  | fin q =>
    simp only [pyDecLt, pyDecGt] at h
    by_cases h1 : q < m.val
    · rw [decide_eq_true h1] at h; simp at h
    · rw [decide_eq_false h1] at h
      by_cases h2 : M.val < q
      · rw [decide_eq_true h2] at h; simp at h
      · rw [decide_eq_false h2] at h
        simp only [Prod.mk.injEq, Option.some.injEq] at h
        exact ⟨q, h.1.symm, not_lt.mp h1, not_lt.mp h2⟩

/-- `validate_input` returns either a value with no message or a
message with no value. -/
theorem validate_input_shape (v : Option (List Char)) (fn : List Char)
    (mn mx : Option Bound) :
    (∃ d, validate_input v fn mn mx = (some d, none)) ∨
    (∃ e, validate_input v fn mn mx = (none, some e)) := by
  simp only [validate_input]
  split
  · exact Or.inr ⟨_, rfl⟩
  split
  · exact Or.inr ⟨_, rfl⟩
  split
  · exact Or.inr ⟨_, rfl⟩
  · rename_i d0 hd0
    rcases rangeCheck_shape d0 fn mn mx with h | ⟨e, h⟩
    · exact Or.inl ⟨d0, h⟩
    · exact Or.inr ⟨e, h⟩

/-- A successful validation with both bounds present yields a finite
value between the bounds (inclusive). -/
theorem validate_success_bounds (v : Option (List Char)) (fn : List Char) (m M : Bound)
    (d : PyDecimal)
    (h : validate_input v fn (some m) (some M) = (some d, none)) :
    ∃ q : ℚ, d = .fin q ∧ m.val ≤ q ∧ q ≤ M.val := by
  simp only [validate_input] at h
  split at h
  · simp at h
  split at h
  · simp at h
  split at h
  · simp at h
  · rename_i d0 hd0
    exact rangeCheck_success d0 d fn m M h

/-!  Claim theorems. -/

/-- C1: for every input triple, `calculate_mortgage` returns
`principal / (years*12)` when the derived monthly rate
`annualRatePercent/100/12` is exactly zero, and otherwise returns
`principal * (monthlyRate * factor) / (factor - 1)` with
`factor = (1 + monthlyRate)^(years*12)`.  (Proved for all inputs, a
superset of the validated triples the claim quantifies over.) -/
theorem calculate_mortgage_formula (P r : ℚ) (y : ℕ) :
    (r / 100 / 12 = 0 → calculate_mortgage P r y = P / ((y * 12 : ℕ) : ℚ)) ∧
    (r / 100 / 12 ≠ 0 →
      calculate_mortgage P r y =
        P * ((r / 100 / 12) * (1 + r / 100 / 12) ^ (y * 12)) /
          ((1 + r / 100 / 12) ^ (y * 12) - 1)) := by
  constructor
  · intro h; simp only [calculate_mortgage]; rw [if_pos h]
  · intro h; simp only [calculate_mortgage]; rw [if_neg h]

/-- Witness for C1: both branches at concrete inputs. -/
theorem calculate_mortgage_formula_witness :
    calculate_mortgage 1200 0 1 = 1200 / ((1 * 12 : ℕ) : ℚ) ∧
    calculate_mortgage 1000 12 1 =
      1000 * (((12 : ℚ) / 100 / 12) * (1 + (12 : ℚ) / 100 / 12) ^ (1 * 12)) /
        ((1 + (12 : ℚ) / 100 / 12) ^ (1 * 12) - 1) :=
  ⟨(calculate_mortgage_formula 1200 0 1).1 (by norm_num),
   (calculate_mortgage_formula 1000 12 1).2 (by norm_num)⟩

/-- C9: `validate_input` always returns the two-outcome pair shape with
exactly one side populated (its embedding is a total function — the
source's catch-all guarantees no exception escapes), and the one
internal failure the checks can raise — the NaN range comparison — is
converted to the generic "Validation error for <fieldName>" message. -/
theorem validate_input_two_outcome :
    (∀ (v : Option (List Char)) (fn : List Char) (mn mx : Option Bound),
      (∃ d, validate_input v fn mn mx = (some d, none)) ∨
      (∃ e, validate_input v fn mn mx = (none, some e))) ∧
    (∀ (s fn : List Char) (m : Bound) (mx : Option Bound),
      parseDecimal (pyStrip s) = some .nan → pyStrip s ≠ [] →
      containsMalicious (pyStrip s) = false →
      validate_input (some s) fn (some m) mx =
        (none, some (("Validation error for ".toList) ++ fn))) := by
  constructor
  · exact validate_input_shape
  · intro s fn m mx hnan hne hmal
    simp only [validate_input, pyStr]
    rw [if_neg hne, if_neg (by simp [hmal]), hnan]
    rfl

/-- Witness for C9: the raw value `"NaN"` for the years field produces
the generic validation-error message. -/
theorem validate_input_two_outcome_witness :
    validate_input (some ("NaN".toList)) yearsField (some yearsMin) (some yearsMax) =
      (none, some (("Validation error for ".toList) ++ yearsField)) :=
  validate_input_two_outcome.2 ("NaN".toList) yearsField yearsMin (some yearsMax)
    (by decide) (by decide) (by decide)

/-- C10: the raw value `"NaN"` in any letter casing, with a minimum
bound supplied, fails with the generic "Validation error for
<fieldName>" message (the decimal constructor accepts the token and the
subsequent bound comparison signals `InvalidOperation`, absorbed by the
catch-all), not with "<fieldName> must be a valid number". -/
theorem validate_nan_generic_message (c1 c2 c3 : Char) (fn : List Char) (m : Bound)
    (mx : Option Bound) (h1 : c1 = 'n' ∨ c1 = 'N') (h2 : c2 = 'a' ∨ c2 = 'A')
    (h3 : c3 = 'n' ∨ c3 = 'N') :
    validate_input (some [c1, c2, c3]) fn (some m) mx =
      (none, some (("Validation error for ".toList) ++ fn)) ∧
    ("Validation error for ".toList) ++ fn ≠ fn ++ (" must be a valid number".toList) := by
  constructor
  · rcases h1 with rfl | rfl <;> rcases h2 with rfl | rfl <;> rcases h3 with rfl | rfl <;> rfl
  · intro h
    have hlen := congrArg List.length h
    simp [List.length_append] at hlen

/-- C2: `validate_input` applies its checks in the fixed order
empty → malicious-pattern → numeric parse → minimum bound → maximum
bound, returning at the first failing check with that check's message;
both bounds are inclusive (a value equal to a bound passes), and at the
endpoint's bounds principal 999 fails the minimum check, principal 1000
passes, years 50 passes, years 51 fails the maximum check. -/
theorem validate_input_check_order :
    (∀ (v : Option (List Char)) (fn : List Char) (mn mx : Option Bound),
      pyStrip (pyStr v) = [] →
      validate_input v fn mn mx = (none, some (fn ++ (" cannot be empty".toList)))) ∧
    (∀ (v : Option (List Char)) (fn : List Char) (mn mx : Option Bound),
      pyStrip (pyStr v) ≠ [] → containsMalicious (pyStrip (pyStr v)) = true →
      validate_input v fn mn mx =
        (none, some (("Invalid characters detected in ".toList) ++ fn))) ∧
    (∀ (v : Option (List Char)) (fn : List Char) (mn mx : Option Bound),
      pyStrip (pyStr v) ≠ [] → containsMalicious (pyStrip (pyStr v)) = false →
      parseDecimal (pyStrip (pyStr v)) = none →
      validate_input v fn mn mx =
        (none, some (fn ++ (" must be a valid number".toList)))) ∧
    (∀ (v : Option (List Char)) (fn : List Char) (m : Bound) (mx : Option Bound) (q : ℚ),
      pyStrip (pyStr v) ≠ [] → containsMalicious (pyStrip (pyStr v)) = false →
      parseDecimal (pyStrip (pyStr v)) = some (.fin q) → q < m.val →
      validate_input v fn (some m) mx =
        (none, some (fn ++ (" must be at least ".toList) ++ m.txt))) ∧
    (∀ (v : Option (List Char)) (fn : List Char) (m M : Bound) (q : ℚ),
      pyStrip (pyStr v) ≠ [] → containsMalicious (pyStrip (pyStr v)) = false →
      parseDecimal (pyStrip (pyStr v)) = some (.fin q) → m.val ≤ q → M.val < q →
      validate_input v fn (some m) (some M) =
        (none, some (fn ++ (" must be no more than ".toList) ++ M.txt))) ∧
    (∀ (v : Option (List Char)) (fn : List Char) (m M : Bound) (q : ℚ),
      pyStrip (pyStr v) ≠ [] → containsMalicious (pyStrip (pyStr v)) = false →
      parseDecimal (pyStrip (pyStr v)) = some (.fin q) → m.val ≤ q → q ≤ M.val →
      validate_input v fn (some m) (some M) = (some (.fin q), none)) ∧
    validate_input (some ("999".toList)) principalField (some principalMin) (some principalMax) =
      (none, some (("Principal must be at least 1000").toList)) ∧
    validate_input (some ("1000".toList)) principalField (some principalMin) (some principalMax) =
      (some (.fin 1000), none) ∧
    validate_input (some ("50".toList)) yearsField (some yearsMin) (some yearsMax) =
      (some (.fin 50), none) ∧
    validate_input (some ("51".toList)) yearsField (some yearsMin) (some yearsMax) =
      (none, some (("Years must be no more than 50").toList)) := by
  refine ⟨?_, ?_, ?_, ?_, ?_, ?_, by decide, by decide, by decide, by decide⟩
  · intro v fn mn mx h
    simp only [validate_input]
    rw [if_pos h]
  · intro v fn mn mx hne hmal
    simp only [validate_input]
    rw [if_neg hne, if_pos hmal]
  · intro v fn mn mx hne hmal hparse
    simp only [validate_input]
    rw [if_neg hne, if_neg (by simp [hmal]), hparse]
  · intro v fn m mx q hne hmal hparse hq
    simp only [validate_input]
    rw [if_neg hne, if_neg (by simp [hmal]), hparse]
    simp only [rangeCheck, pyDecLt]
    rw [decide_eq_true hq]
  · intro v fn m M q hne hmal hparse hq1 hq2
    simp only [validate_input]
    rw [if_neg hne, if_neg (by simp [hmal]), hparse]
    simp only [rangeCheck, rangeCheckMax, pyDecLt, pyDecGt]
    rw [decide_eq_false (not_lt.mpr hq1), decide_eq_true hq2]
  · intro v fn m M q hne hmal hparse hq1 hq2
    simp only [validate_input]
    rw [if_neg hne, if_neg (by simp [hmal]), hparse]
    simp only [rangeCheck, rangeCheckMax, pyDecLt, pyDecGt]
    rw [decide_eq_false (not_lt.mpr hq1), decide_eq_false (not_lt.mpr hq2)]

/-- Witness for C2: the years value `"0"` fails the minimum-bound check
with that check's message. -/
theorem validate_input_check_order_witness :
    validate_input (some ("0".toList)) yearsField (some yearsMin) (some yearsMax) =
      (none, some (yearsField ++ (" must be at least ".toList) ++ yearsMin.txt)) :=
  validate_input_check_order.2.2.2.1 (some ("0".toList)) yearsField yearsMin
    (some yearsMax) 0 (by decide) (by decide) (by decide) (by decide)

/-- If a list of options contains a `some`, filtering out the `none`s
leaves a nonempty list. -/
theorem filterMap_id_ne_nil {α : Type} (l : List (Option α)) (a : α)
    (h : some a ∈ l) : l.filterMap id ≠ [] := by
  intro hnil
  have hmem : a ∈ l.filterMap id := List.mem_filterMap.mpr ⟨some a, h, rfl⟩
  rw [hnil] at hmem
  exact absurd hmem (List.not_mem_nil a)

/-- C3: the endpoint validates the three fields independently, collects
exactly one message per failed field in the fixed order principal,
rate, years, answers with the validation-failure record when at least
one field failed, and invokes the calculator only when all three
validations succeed.  The concrete conjunct shows two failing fields
(principal below range, years unparsable) reported together, with the
middle field's success not blocking the later field's message. -/
theorem calculate_error_collection :
    (∀ p : Payload,
      ((validate_input p.principal principalField (some principalMin) (some principalMax)).2 ≠ none ∨
       (validate_input p.annualRate rateField (some rateMin) (some rateMax)).2 ≠ none ∨
       (validate_input p.years yearsField (some yearsMin) (some yearsMax)).2 ≠ none) →
      calculate p = .validationFailed
        (([(validate_input p.principal principalField (some principalMin) (some principalMax)).2,
           (validate_input p.annualRate rateField (some rateMin) (some rateMax)).2,
           (validate_input p.years yearsField (some yearsMin) (some yearsMax)).2]).filterMap id)) ∧
    (∀ p : Payload,
      (validate_input p.principal principalField (some principalMin) (some principalMax)).2 = none →
      (validate_input p.annualRate rateField (some rateMin) (some rateMax)).2 = none →
      (validate_input p.years yearsField (some yearsMin) (some yearsMax)).2 = none →
      ∃ dp dr dy,
        (validate_input p.principal principalField (some principalMin) (some principalMax)).1 = some dp ∧
        (validate_input p.annualRate rateField (some rateMin) (some rateMax)).1 = some dr ∧
        (validate_input p.years yearsField (some yearsMin) (some yearsMax)).1 = some dy ∧
        calculate p = .dispatched dp dr dy) ∧
    calculate ⟨some ("1".toList), some ("6.5".toList), some ("abc".toList)⟩ =
      .validationFailed [("Principal must be at least 1000").toList,
        ("Years must be a valid number").toList] := by
  refine ⟨?_, ?_, by decide⟩
  · intro p h
    have hne : ([(validate_input p.principal principalField (some principalMin) (some principalMax)).2,
        (validate_input p.annualRate rateField (some rateMin) (some rateMax)).2,
        (validate_input p.years yearsField (some yearsMin) (some yearsMax)).2]).filterMap id ≠ [] := by
      rcases h with h | h | h <;>
        obtain ⟨e, he⟩ := Option.ne_none_iff_exists'.mp h
      · exact filterMap_id_ne_nil _ e (by rw [← he]; exact List.mem_cons_self _ _)
      · exact filterMap_id_ne_nil _ e (by rw [← he]; simp)
      · exact filterMap_id_ne_nil _ e (by rw [← he]; simp)
    simp only [calculate]
    rw [if_neg hne]
  · intro p h1 h2 h3
    rcases validate_input_shape p.principal principalField (some principalMin) (some principalMax)
      with ⟨dp, hdp⟩ | ⟨e, he⟩
    swap
    · rw [he] at h1; simp at h1
    rcases validate_input_shape p.annualRate rateField (some rateMin) (some rateMax)
      with ⟨dr, hdr⟩ | ⟨e, he⟩
    swap
    · rw [he] at h2; simp at h2
    rcases validate_input_shape p.years yearsField (some yearsMin) (some yearsMax)
      with ⟨dy, hdy⟩ | ⟨e, he⟩
    swap
    · rw [he] at h3; simp at h3
    refine ⟨dp, dr, dy, by rw [hdp], by rw [hdr], by rw [hdy], ?_⟩
    simp only [calculate]
    rw [hdp, hdr, hdy]
    rw [if_pos (by simp)]
    rfl

/-- Witness for C3: a fully valid payload is dispatched to the
calculator with the three validated values. -/
theorem calculate_error_collection_witness :
    ∃ dp dr dy,
      (validate_input (Payload.mk (some ("250000".toList)) (some ("4.5".toList)) (some ("25".toList))).principal
        principalField (some principalMin) (some principalMax)).1 = some dp ∧
      (validate_input (Payload.mk (some ("250000".toList)) (some ("4.5".toList)) (some ("25".toList))).annualRate
        rateField (some rateMin) (some rateMax)).1 = some dr ∧
      (validate_input (Payload.mk (some ("250000".toList)) (some ("4.5".toList)) (some ("25".toList))).years
        yearsField (some yearsMin) (some yearsMax)).1 = some dy ∧
      calculate (Payload.mk (some ("250000".toList)) (some ("4.5".toList)) (some ("25".toList))) =
        .dispatched dp dr dy :=
  calculate_error_collection.2.1
    (Payload.mk (some ("250000".toList)) (some ("4.5".toList)) (some ("25".toList)))
    (by decide) (by decide) (by decide)

/-- When some field's validation message is among the three collected
slots, the endpoint answers with the validation-failure record and that
message is among the details. -/
theorem calculate_failed_of_error_mem (p : Payload) (e : List Char)
    (h : some e ∈
      [(validate_input p.principal principalField (some principalMin) (some principalMax)).2,
       (validate_input p.annualRate rateField (some rateMin) (some rateMax)).2,
       (validate_input p.years yearsField (some yearsMin) (some yearsMax)).2]) :
    ∃ details, calculate p = .validationFailed details ∧ e ∈ details := by
  have hne := filterMap_id_ne_nil _ e h
  simp only [calculate]
  rw [if_neg hne]
  exact ⟨_, rfl, List.mem_filterMap.mpr ⟨some e, h, rfl⟩⟩

/-- Counterexample to C4 as stated: with `principal` absent the raw
value is Python `None`, `str(None)` is the non-empty string `None`, so
the empty-value check passes and the decimal parse fails — the reported
message is "Principal must be a valid number", not
"Principal cannot be empty". -/
theorem validate_missing_principal_counterexample :
    validate_input none principalField (some principalMin) (some principalMax) =
      (none, some (("Principal must be a valid number").toList)) ∧
    ("Principal must be a valid number").toList ≠ ("Principal cannot be empty").toList ∧
    calculate ⟨none, some ("6.5".toList), some ("30".toList)⟩ =
      .validationFailed [("Principal must be a valid number").toList] ∧
    ("Principal cannot be empty").toList ∉ [("Principal must be a valid number").toList] :=
  ⟨by decide, by decide, by decide, by decide⟩

/-- C4 amended: when `principal` is absent, validation of that field
does fail and the failure is reported in the details — but with the
parse-failure message "Principal must be a valid number" (since
`str(None)` is the non-empty string `None`), not
"Principal cannot be empty". -/
theorem calculate_missing_principal_message (ar yr : Option (List Char)) :
    ∃ details, calculate ⟨none, ar, yr⟩ = .validationFailed details ∧
      ("Principal must be a valid number").toList ∈ details := by
  have hp : validate_input none principalField (some principalMin) (some principalMax) =
      (none, some (("Principal must be a valid number").toList)) := by decide
  refine calculate_failed_of_error_mem ⟨none, ar, yr⟩ _ ?_
  refine List.mem_cons.mpr (Or.inl ?_)
  show some _ =
    (validate_input none principalField (some principalMin) (some principalMax)).2
  rw [hp]

/-- Counterexample to C5 as stated: the raw years value `"1.5"` passes
validation (it is within the bounds), its value 3/2 is not an integer,
and it is handed to the calculator. -/
theorem validate_years_fraction_counterexample :
    validate_input (some ("1.5".toList)) yearsField (some yearsMin) (some yearsMax) =
      (some (.fin (mkRat 3 2)), none) ∧
    (mkRat 3 2).den ≠ 1 ∧
    calculate ⟨some ("5000".toList), some ("5".toList), some ("1.5".toList)⟩ =
      .dispatched (.fin 5000) (.fin 5) (.fin (mkRat 3 2)) :=
  ⟨by decide, by decide, by decide⟩

/-- C5 amended: every years value that passes validation is a rational
between 1 and 50 inclusive — but not necessarily an integer; fractional
values such as 1.5 also reach the calculator. -/
theorem validate_years_range (v : Option (List Char)) (d : PyDecimal)
    (h : validate_input v yearsField (some yearsMin) (some yearsMax) = (some d, none)) :
    ∃ q : ℚ, d = .fin q ∧ 1 ≤ q ∧ q ≤ 50 := by
  obtain ⟨q, hq, h1, h2⟩ := validate_success_bounds v yearsField yearsMin yearsMax d h
  exact ⟨q, hq, by simpa [yearsMin] using h1, by simpa [yearsMax] using h2⟩

/-- Witness for the amended C5 at the years value `"30"`. -/
theorem validate_years_range_witness :
    ∃ q : ℚ, PyDecimal.fin 30 = .fin q ∧ 1 ≤ q ∧ q ≤ 50 :=
  validate_years_range (some ("30".toList)) (.fin 30) (by decide)

/-- Witness for C10 at the casing `"nAN"` for the rate field. -/
theorem validate_nan_generic_message_witness :
    validate_input (some ['n', 'A', 'N']) rateField (some rateMin) (some rateMax) =
      (none, some (("Validation error for ".toList) ++ rateField)) :=
  (validate_nan_generic_message 'n' 'A' 'N' rateField rateMin (some rateMax)
    (Or.inl rfl) (Or.inr rfl) (Or.inr rfl)).1

/-- Auxiliary inequality: `(1+r)^n - 1 ≤ n·r·(1+r)^n` for `r ≥ 0` (the
geometric sum `(1+r)^n - 1 = r·∑ (1+r)^k` is at most `n·r` times the
largest term). -/
theorem pow_sub_one_le_nmul (r : ℚ) (hr : 0 ≤ r) (n : ℕ) :
    (1 + r) ^ n - 1 ≤ (n : ℚ) * r * (1 + r) ^ n := by
  induction n with
  | zero => simp
  | succ k ih =>
    have h1 : (0:ℚ) ≤ 1 + r := by linarith
    have h2 : (1:ℚ) ≤ (1 + r) ^ (k + 1) := one_le_pow₀ (by linarith)
    push_cast
    calc (1 + r) ^ (k + 1) - 1 = ((1 + r) ^ k - 1) * (1 + r) + r := by ring
      _ ≤ (k : ℚ) * r * (1 + r) ^ k * (1 + r) + r := by
          have := mul_le_mul_of_nonneg_right ih h1
          linarith
      _ = (k : ℚ) * r * (1 + r) ^ (k + 1) + r * 1 := by ring
      _ ≤ (k : ℚ) * r * (1 + r) ^ (k + 1) + r * (1 + r) ^ (k + 1) := by
          have := mul_le_mul_of_nonneg_left h2 hr
          linarith
      _ = ((k : ℚ) + 1) * r * (1 + r) ^ (k + 1) := by ring

/-- C6: for every principal in [1000, 10000000], annual rate in
[0.01, 50], and (integer) term in [1, 50] years, the monthly payment is
positive (and, being an exact rational, finite), and the total paid
over `years*12` months is at least the principal. -/
theorem calculate_mortgage_positive_total (P r : ℚ) (y : ℕ)
    (hP1 : 1000 ≤ P) (_hP2 : P ≤ 10000000) (hr1 : 1/100 ≤ r) (_hr2 : r ≤ 50)
    (hy1 : 1 ≤ y) (_hy2 : y ≤ 50) :
    0 < calculate_mortgage P r y ∧
    P ≤ calculate_mortgage P r y * ((y * 12 : ℕ) : ℚ) := by
  have hP : (0:ℚ) < P := by linarith
  have hr0 : (0:ℚ) < r := by linarith
  have hmr : (0:ℚ) < r / 100 / 12 := by positivity
  have hmrne : r / 100 / 12 ≠ 0 := ne_of_gt hmr
  have hnne : y * 12 ≠ 0 := by omega
  have hfgt : 1 < (1 + r / 100 / 12) ^ (y * 12) := one_lt_pow₀ (by linarith) hnne
  have hfpos : (0:ℚ) < (1 + r / 100 / 12) ^ (y * 12) := by linarith
  have hden : (0:ℚ) < (1 + r / 100 / 12) ^ (y * 12) - 1 := by linarith
  have key := pow_sub_one_le_nmul (r / 100 / 12) hmr.le (y * 12)
  simp only [calculate_mortgage]
  rw [if_neg hmrne]
  constructor
  · exact div_pos (mul_pos hP (mul_pos hmr hfpos)) hden
  · rw [div_mul_eq_mul_div, le_div_iff₀ hden]
    calc P * ((1 + r / 100 / 12) ^ (y * 12) - 1)
        ≤ P * (((y * 12 : ℕ) : ℚ) * (r / 100 / 12) * (1 + r / 100 / 12) ^ (y * 12)) :=
          mul_le_mul_of_nonneg_left key hP.le
      _ = P * (r / 100 / 12 * (1 + r / 100 / 12) ^ (y * 12)) * ((y * 12 : ℕ) : ℚ) := by
          ring

/-- Witness for C6 at the spec's concrete scenario (300000 at 6.5% over
30 years). -/
theorem calculate_mortgage_positive_total_witness :
    0 < calculate_mortgage 300000 (13/2) 30 ∧
    (300000:ℚ) ≤ calculate_mortgage 300000 (13/2) 30 * ((30 * 12 : ℕ) : ℚ) :=
  calculate_mortgage_positive_total 300000 (13/2) 30 (by norm_num) (by norm_num)
    (by norm_num) (by norm_num) (by norm_num) (by norm_num)

/-- Counterexample to C7 as stated: the boundary rate `"0.01"` — which
the claim presents as a validated input ("the provided minimum") — is
in fact rejected by validation with the minimum-bound message.  The
bound is the float `0.01`, exactly 5764607523034235/2^59 > 1/100, and
the Decimal-float comparison is exact, so `Decimal("0.01") < 0.01`
holds and line 50's check fires. -/
theorem validate_rate_boundary_counterexample :
    validate_input (some ("0.01".toList)) rateField (some rateMin) (some rateMax) =
      (none, some (("Annual Interest Rate must be at least 0.01").toList)) ∧
    mkRat 1 100 < rateMin.val :=
  ⟨by decide, by decide⟩

/-- C7 amended: every annual rate that passes validation exceeds 0.01
(it is at least the float bound 5764607523034235/2^59 > 1/100), so the
zero-monthly-rate branch of `calculate_mortgage` is never taken for a
validated rate and the general formula's denominator is nonzero; the
literal rate 0.01 itself is rejected by validation (see the
counterexample), yet `calculate_mortgage` at rate 0.01 still involves
no division by zero and its monthly payment is within 0.01 of the
straight-line `principal/(years*12)`. -/
theorem validate_rate_positive :
    (∀ (v : Option (List Char)) (d : PyDecimal),
      validate_input v rateField (some rateMin) (some rateMax) = (some d, none) →
      ∃ q : ℚ, d = .fin q ∧ 1/100 < q ∧ q / 100 / 12 ≠ 0 ∧
        ∀ y : ℕ, y ≠ 0 → (1 + q / 100 / 12) ^ (y * 12) - 1 ≠ 0) ∧
    ((1 + (1:ℚ)/100/100/12) ^ (1 * 12) - 1 ≠ 0 ∧
     |calculate_mortgage 1000 (1/100) 1 - 1000 / ((1 * 12 : ℕ) : ℚ)| < 1/100) := by
  constructor
  · intro v d h
    obtain ⟨q, hq, h1, h2⟩ := validate_success_bounds v rateField rateMin rateMax d h
    have hmin : (1:ℚ)/100 < rateMin.val := by
      simp only [rateMin]
      rw [Rat.mkRat_eq_div]
      norm_num
    have h1' : (1:ℚ)/100 < q := lt_of_lt_of_le hmin h1
    have hmr : (0:ℚ) < q / 100 / 12 := by
      have : (0:ℚ) < q := by linarith
      positivity
    refine ⟨q, hq, h1', ne_of_gt hmr, ?_⟩
    intro y hy
    have hn : y * 12 ≠ 0 := by omega
    have : 1 < (1 + q / 100 / 12) ^ (y * 12) := one_lt_pow₀ (by linarith) hn
    exact sub_ne_zero_of_ne (ne_of_gt this)
  · constructor
    · have : (1:ℚ) < (1 + (1:ℚ)/100/100/12) ^ (1 * 12) :=
        one_lt_pow₀ (by norm_num) (by norm_num)
      exact sub_ne_zero_of_ne (ne_of_gt this)
    · have hne : (1:ℚ)/100 / 100 / 12 ≠ 0 := by norm_num
      simp only [calculate_mortgage]
      rw [if_neg hne]
      rw [abs_sub_lt_iff]
      constructor <;> norm_num

/-- Witness for the amended C7 at the rate string `"0.02"` (the
smallest two-digit rate above the float bound). -/
theorem validate_rate_positive_witness :
    ∃ q : ℚ, PyDecimal.fin (mkRat 1 50) = .fin q ∧ 1/100 < q ∧ q / 100 / 12 ≠ 0 ∧
      ∀ y : ℕ, y ≠ 0 → (1 + q / 100 / 12) ^ (y * 12) - 1 ≠ 0 :=
  validate_rate_positive.1 (some ("0.02".toList)) (.fin (mkRat 1 50)) (by decide)

/-- C8: the raw value `"<script>alert(1)</script>"` in any of the three
fields fails that field's validation with the malicious-pattern message
naming the field, and the endpoint answers with the validation-failure
(HTTP 400) record whatever the other fields hold; the dispatch model is
a total function, so no unexpected-error (HTTP 500) path is
reachable. -/
theorem calculate_rejects_script_injection :
    (∀ ar yr, ∃ details,
      calculate ⟨some ("<script>alert(1)</script>".toList), ar, yr⟩ =
        .validationFailed details ∧
      (("Invalid characters detected in ".toList) ++ principalField) ∈ details) ∧
    (∀ pr yr, ∃ details,
      calculate ⟨pr, some ("<script>alert(1)</script>".toList), yr⟩ =
        .validationFailed details ∧
      (("Invalid characters detected in ".toList) ++ rateField) ∈ details) ∧
    (∀ pr ar, ∃ details,
      calculate ⟨pr, ar, some ("<script>alert(1)</script>".toList)⟩ =
        .validationFailed details ∧
      (("Invalid characters detected in ".toList) ++ yearsField) ∈ details) := by
  refine ⟨?_, ?_, ?_⟩
  · intro ar yr
    have hb : validate_input (some ("<script>alert(1)</script>".toList)) principalField
        (some principalMin) (some principalMax) =
        (none, some (("Invalid characters detected in ".toList) ++ principalField)) := by
      decide
    refine calculate_failed_of_error_mem ⟨_, ar, yr⟩ _ ?_
    refine List.mem_cons.mpr (Or.inl ?_)
    show some _ = (validate_input (some ("<script>alert(1)</script>".toList)) principalField
      (some principalMin) (some principalMax)).2
    rw [hb]
  · intro pr yr
    have hb : validate_input (some ("<script>alert(1)</script>".toList)) rateField
        (some rateMin) (some rateMax) =
        (none, some (("Invalid characters detected in ".toList) ++ rateField)) := by
      decide
    refine calculate_failed_of_error_mem ⟨pr, _, yr⟩ _ ?_
    refine List.mem_cons.mpr (Or.inr (List.mem_cons.mpr (Or.inl ?_)))
    show some _ = (validate_input (some ("<script>alert(1)</script>".toList)) rateField
      (some rateMin) (some rateMax)).2
    rw [hb]
  · intro pr ar
    have hb : validate_input (some ("<script>alert(1)</script>".toList)) yearsField
        (some yearsMin) (some yearsMax) =
        (none, some (("Invalid characters detected in ".toList) ++ yearsField)) := by
      decide
    refine calculate_failed_of_error_mem ⟨pr, ar, _⟩ _ ?_
    refine List.mem_cons.mpr (Or.inr (List.mem_cons.mpr (Or.inr (List.mem_cons.mpr (Or.inl ?_)))))
    show some _ = (validate_input (some ("<script>alert(1)</script>".toList)) yearsField
      (some yearsMin) (some yearsMax)).2
    rw [hb]

end Mortgage
